import Mathlib

/-
Verification of the JSON-to-table normalization and page flows of the
Cricbuzz_livestats repository (src/pages/top_stats.py, src/pages/sql_queries.py).

The Python code is shallowly embedded: decoded JSON values are the inductive
type `Json` (numbers are modelled as integers; no claim involves floats),
network reads are abstracted as the decoded body handed to each function
(`none` standing for a body on which decoding raised), and every operation
that can raise a Python exception returns `Except PyErr`.
-/

set_option autoImplicit false

/-- A decoded Python JSON value, as produced by json.loads. -/
inductive Json where
  | null
  | bool (b : Bool)
  | num (n : Int)
  | str (s : String)
  | arr (l : List Json)
  | obj (l : List (String × Json))

/- Structural equality of decoded values, Python ==. -/
mutual
def jsonEq : Json → Json → Bool
  | .null, .null => true
  | .bool p, .bool q => p == q
  | .num p, .num q => p == q
  | .str p, .str q => p == q
  | .arr p, .arr q => jsonEqL p q
  | .obj p, .obj q => jsonEqO p q
  | _, _ => false
def jsonEqL : List Json → List Json → Bool
  | [], [] => true
  | u :: us, w :: ws => jsonEq u w && jsonEqL us ws
  | _, _ => false
def jsonEqO : List (String × Json) → List (String × Json) → Bool
  | [], [] => true
  | (ka, va) :: us, (kb, vb) :: ws => ka == kb && jsonEq va vb && jsonEqO us ws
  | _, _ => false
end

theorem jsonEq_spec : ∀ a b : Json, jsonEq a b = true ↔ a = b := by
  apply jsonEq.induct
    (fun a b => jsonEq a b = true ↔ a = b)
    (fun a b => jsonEqO a b = true ↔ a = b)
    (fun a b => jsonEqL a b = true ↔ a = b) <;>
    intros <;> try simp_all [jsonEq, jsonEqL, jsonEqO]
  all_goals (intro he; subst he)
  · rename_i t h1 h2 h3 h4 h5 h6
    cases t with
    | null => exact h1 rfl rfl
    | bool b =>
        cases b with
        | false => exact h2.1.1 rfl rfl
        | true => exact h2.2.2 rfl rfl
    | num n => exact h3 n n rfl rfl
    | str s => exact h4 s s rfl rfl
    | arr l => exact h5 l l rfl rfl
    | obj l => exact h6 l l rfl rfl
  · rename_i t h1 h2
    cases t with
    | nil => exact h1 rfl rfl
    | cons a as => exact h2 a as a as rfl rfl
  · rename_i t h1 h2
    cases t with
    | nil => exact h1 rfl rfl
    | cons a as =>
        obtain ⟨k, v⟩ := a
        exact h2 k v as k v as rfl rfl

instance : BEq Json := ⟨jsonEq⟩

instance : LawfulBEq Json where
  eq_of_beq h := (jsonEq_spec _ _).mp h
  rfl := by intro a; exact (jsonEq_spec a a).mpr rfl

instance : DecidableEq Json := fun a b =>
  decidable_of_iff (jsonEq a b = true) (jsonEq_spec a b)

/-- Python exception classes that the embedded code can raise. -/
inductive PyErr where
  | typeError
  | keyError
  | attributeError
  /-- The error pandas raises when the column labels passed to DataFrame
  disagree with the width of the nested-list data (wrapped from an
  AssertionError inside pandas; the distinction is irrelevant here). -/
  | valueError
  | jsonDecodeError
  deriving DecidableEq

/-- Python truthiness of a decoded JSON value (bool(x)). -/
def truthy : Json → Bool
  | .null => false
  | .bool b => b
  | .num n => n != 0
  | .str s => s != ""
  | .arr l => !l.isEmpty
  | .obj l => !l.isEmpty

/-- First binding of a key in a decoded object (json.loads yields unique keys). -/
def objLookup (l : List (String × Json)) (k : String) : Option Json :=
  (l.find? (fun q => q.1 == k)).map (fun q => q.2)

/-- Whether a decoded object binds a key. -/
def objContains (l : List (String × Json)) (k : String) : Bool :=
  l.any (fun q => q.1 == k)

/-- Python substring test used by the in operator on strings (keys in the
source are never empty, so the empty-pattern corner is irrelevant). -/
def strContains (s pat : String) : Bool :=
  (s.splitOn pat).length != 1

/-- The Python expression k in x for a string literal k: key membership on a
dict, element membership on a list, substring test on a string, and a
TypeError on every non-iterable value. -/
def pyContains (k : String) (j : Json) : Except PyErr Bool :=
  match j with
  | .obj l => .ok (objContains l k)
  | .arr l => .ok (l.any (fun x => x == Json.str k))
  | .str s => .ok (strContains s k)
  | _ => .error .typeError

/-- The Python expression x[k] for a string literal k: dict lookup raising
KeyError on a missing key, and a TypeError on every non-dict value (list and
string subscripts demand integers; other values are not subscriptable). -/
def pyGet (j : Json) (k : String) : Except PyErr Json :=
  match j with
  | .obj l =>
      match objLookup l k with
      | some v => .ok v
      | none => .error .keyError
  | _ => .error .typeError

/-- The Python expression x.get(k, d): only dicts have the get method, so
every non-dict value raises AttributeError. -/
def pyGetD (j : Json) (k : String) (dflt : Json) : Except PyErr Json :=
  match j with
  | .obj l => .ok ((objLookup l k).getD dflt)
  | _ => .error .attributeError

/-- The Python expression x.items(): only dicts have it. -/
def pyItems : Json → Except PyErr (List (String × Json))
  | .obj l => .ok l
  | _ => .error .attributeError

/-- Python iteration (for y in x): a list yields its elements, a dict its
keys, a string its characters; every other value raises TypeError. -/
def pyIter : Json → Except PyErr (List Json)
  | .arr l => .ok l
  | .obj l => .ok (l.map (fun q => Json.str q.1))
  | .str s => .ok (s.data.map (fun c => Json.str (String.mk [c])))
  | _ => .error .typeError

/-- A value on which the source calls str.replace: non-strings raise
AttributeError. -/
def asStr : Json → Except PyErr String
  | .str s => .ok s
  | _ => .error .attributeError

/-- Python repr of a decoded JSON value (string escaping inside repr is not
needed by any claim and is left as plain quoting). -/
def pyRepr : Json → String
  | .null => "None"
  | .bool true => "True"
  | .bool false => "False"
  | .num n => toString n
  | .str s => "\x27" ++ s ++ "\x27"
  | .arr l => "[" ++ String.intercalate ", " (l.attach.map (fun x => pyRepr x.1)) ++ "]"
  | .obj l =>
      "\x7b" ++
        String.intercalate ", "
          (l.attach.map (fun x => "\x27" ++ x.1.1 ++ "\x27: " ++ pyRepr x.1.2)) ++
      "\x7d"
decreasing_by
  · have := List.sizeOf_lt_of_mem x.2
    simp at this ⊢
    omega
  · obtain ⟨⟨k, v⟩, hm⟩ := x
    have := List.sizeOf_lt_of_mem hm
    simp at this ⊢
    omega

/-- Python str() as used by f-string interpolation: strings verbatim, every
other value via repr. -/
def pyStr : Json → String
  | .str s => s
  | j => pyRepr j

/-- One cell of a materialized DataFrame: either a value taken from the
input, or the NaN fill that pandas inserts into rows shorter than the
widest row of the nested-list data. -/
inductive Cell where
  | val (j : Json)
  | nan
  deriving DecidableEq

/-- A materialized pandas DataFrame: ordered column labels and rectangular
rows. pd.DataFrame() is Table.mk [] []. -/
structure Table where
  headers : List Json
  rows : List (List Cell)
  deriving DecidableEq

/-- Width pandas infers for nested-list data: the maximum row length. -/
def maxLen (rows : List (List Json)) : Nat :=
  rows.foldl (fun m r => max m r.length) 0

/-- Pads one row of nested-list data to the inferred width, as pandas
to_object_array does (missing cells become the NaN fill). -/
def padRow (w : Nat) (r : List Json) : List Cell :=
  r.map Cell.val ++ List.replicate (w - r.length) Cell.nan

/-- pd.DataFrame(data, columns=cols) on nested-list data: empty data gives a
zero-row frame with the given columns; otherwise rows are padded to the
maximum row length and construction raises when the column-label count
differs from that width. -/
def pdDataFrameL (rows : List (List Json)) (cols : List Json) : Except PyErr Table :=
  if rows.isEmpty then .ok (Table.mk cols [])
  else
    let w := maxLen rows
    if cols.length = w then .ok (Table.mk cols (rows.map (padRow w)))
    else .error .valueError

/-- A row of the data handed to pd.DataFrame by parse_stats_table must be
list-shaped to take the nested-list construction path; the source never
reaches DataFrame with non-list rows in the situations the claims cover. -/
def asRowList : Json → Except PyErr (List Json)
  | .arr l => .ok l
  | _ => .error .typeError

/-- The columns argument of pd.DataFrame goes through Index(...): a list is
taken verbatim, a dict contributes its keys, and every other value (string
included) raises the must-be-called-with-a-collection error. -/
def ensureIndex : Json → Except PyErr (List Json)
  | .arr l => .ok l
  | .obj l => .ok (l.map (fun q => Json.str q.1))
  | _ => .error .typeError

/-- parse_stats_table of src/pages/top_stats.py lines 57 to 64: guard
`if not stats_json or "headers" not in stats_json or "values" not in
stats_json: return pd.DataFrame()`, then
`rows = [row["values"] for row in stats_json["values"]]` and
`pd.DataFrame(rows, columns=stats_json["headers"])`. -/
def parse_stats_table (stats_json : Json) : Except PyErr Table := do
  if truthy stats_json = false then
    return Table.mk [] []
  else
    let hh ← pyContains "headers" stats_json
    if hh = false then
      return Table.mk [] []
    else
      let hv ← pyContains "values" stats_json
      if hv = false then
        return Table.mk [] []
      else
        let headers ← pyGet stats_json "headers"
        let valuesJ ← pyGet stats_json "values"
        let items ← pyIter valuesJ
        let rowsJ ← items.mapM (fun row => pyGet row "values")
        let rows ← rowsJ.mapM asRowList
        let cols ← ensureIndex headers
        pdDataFrameL rows cols

/-- Well-formed stats payload of the external shape documented in the spec:
an object with a headers list and a values list whose entries each wrap a
cell list under the values key. -/
def stats_of (hs : List Json) (cells : List (List Json)) : Json :=
  Json.obj
    [("headers", Json.arr hs),
     ("values", Json.arr (cells.map (fun e => Json.obj [("values", Json.arr e)])))]

/-- search_players of top_stats.py lines 25 to 35: the endpoint body is read
and decoded inside try/except, every decode failure yielding the empty dict.
The network read is abstracted as the decoded body; none stands for a body
on which decoding (or utf-8 decoding) raised. -/
def search_players (body : Option Json) : Json :=
  match body with
  | some j => j
  | none => Json.obj []

/-- get_player_details of top_stats.py lines 37 to 47: identical
decode-or-empty-dict structure, different endpoint. -/
def get_player_details (body : Option Json) : Json :=
  match body with
  | some j => j
  | none => Json.obj []

/-- get_player_stats of top_stats.py lines 49 to 55: on HTTP 200 the body is
decoded with no exception handler (an undecodable body raises), any other
status yields the empty dict. -/
def get_player_stats (status : Nat) (body : Option Json) : Except PyErr Json :=
  if status = 200 then
    match body with
    | some j => .ok j
    | none => .error .jsonDecodeError
  else .ok (Json.obj [])

/-- Assignment d[k] = v on a Python dict: an existing key keeps its position
and takes the new value, a new key is appended. Built dicts start empty, so
keys stay unique. -/
def dictInsert : List (Json × Json) → Json → Json → List (Json × Json)
  | [], n, v => [(n, v)]
  | q :: d, n, v => if q.1 == n then (n, v) :: d else q :: dictInsert d n v

/-- Lookup in a built Python dict. -/
def dictLookup (d : List (Json × Json)) (k : Json) : Option Json :=
  (d.find? (fun q => q.1 == k)).map (fun q => q.2)

/-- The dict comprehension at top_stats.py line 77,
`player_options = {p["name"]: p for p in results["player"]}`: left-to-right
insertion, so of two candidates with equal display names the later one ends
up stored under the key. -/
def buildPlayerOptionsAux (acc : List (Json × Json)) :
    List Json → Except PyErr (List (Json × Json))
  | [] => .ok acc
  | p :: ps =>
      match pyGet p "name" with
      | .ok n => buildPlayerOptionsAux (dictInsert acc n p) ps
      | .error e => .error e

def buildPlayerOptions (players : List Json) : Except PyErr (List (Json × Json)) :=
  buildPlayerOptionsAux [] players

/-- Outcome of the search-and-resolve step of show_top_stats. -/
inductive ResolveOutcome where
  | noPlayersFound
  | candidates (opts : List (Json × Json))
  deriving DecidableEq

/-- show_top_stats lines 74 to 79 and 187 to 188: the search result feeds
`if "player" in results and results["player"]:`, whose failing branch shows
the no-players-found warning; the passing branch builds the candidate dict. -/
def show_top_stats_resolve (searchBody : Option Json) : Except PyErr ResolveOutcome := do
  let results := search_players searchBody
  let hp ← pyContains "player" results
  if hp = false then
    return ResolveOutcome.noPlayersFound
  else
    let pv ← pyGet results "player"
    if truthy pv = false then
      return ResolveOutcome.noPlayersFound
    else
      let items ← pyIter pv
      let opts ← buildPlayerOptions items
      return ResolveOutcome.candidates opts

/-- One visible element produced while rendering. -/
inductive RenderItem where
  | text (s : String)
  | subheader (s : String)
  | image (url : String)
  | table (t : Table)
  | warning (s : String)
  | markdown (s : String)
  | errorMsg (s : String)
  deriving DecidableEq

/-- The image block of top_stats.py lines 89 to 98: a direct image URL (with
http rewritten to https) wins, else a truthy faceImageId builds a cricbuzz
URL, else the placeholder is shown. -/
def imageBlock (sp details : Json) : Except PyErr (List RenderItem) := do
  let hi ← pyContains "image" details
  if hi then
    let v ← pyGet details "image"
    let s ← asStr v
    return [RenderItem.image (s.replace "http://" "https://")]
  else
    let hf ← pyContains "faceImageId" sp
    if hf then
      let fv ← pyGet sp "faceImageId"
      if truthy fv then
        return [RenderItem.image
          ("https://www.cricbuzz.com/a/img/v1/152x152/i1/c" ++ pyStr fv ++ ".jpg")]
      else
        return [RenderItem.image "https://placehold.co/150x150/800000/FFFFFF?text=No+Image"]
    else
      return [RenderItem.image "https://placehold.co/150x150/800000/FFFFFF?text=No+Image"]

/-- One rankings column of top_stats.py lines 115 to 137: the discipline
title, then either each category-value pair of rankings[key] or the
no-rankings line. -/
def rankingsCol (title : String) (key : String) (rankings : Json) :
    Except PyErr (List RenderItem) := do
  let h ← pyContains key rankings
  if h then
    let v ← pyGet rankings key
    let prs ← pyItems v
    return RenderItem.text ("### " ++ title) ::
      prs.map (fun q => RenderItem.text (q.1 ++ ": " ++ pyStr q.2))
  else
    return [RenderItem.text ("### " ++ title), RenderItem.text "No rankings available"]

/-- The body of the career try block, top_stats.py lines 147 to 161: decode,
guard `if "values" in career_json and career_json["values"]:`, collect
[f.get("name"), f.get("debut"), f.get("lastPlayed")] per entry, and build
the three-column DataFrame when any rows were collected. -/
def careerSectionE (body : Option Json) : Except PyErr (List RenderItem) := do
  let career_json ←
    match body with
    | some j => pure j
    | none => Except.error PyErr.jsonDecodeError
  let hv ← pyContains "values" career_json
  if hv then
    let v ← pyGet career_json "values"
    if truthy v then
      let fs ← pyIter v
      let rows ← fs.mapM (fun f => do
        let a ← pyGetD f "name" Json.null
        let b ← pyGetD f "debut" Json.null
        let c ← pyGetD f "lastPlayed" Json.null
        return [a, b, c])
      if rows.isEmpty then
        return [RenderItem.warning "No career debut information available."]
      else
        let df ← pdDataFrameL rows [Json.str "Format", Json.str "Debut", Json.str "Last Played"]
        return [RenderItem.table df]
    else
      return [RenderItem.warning "No career debut information available."]
  else
    return [RenderItem.warning "No career debut information available."]

/-- The whole career block including its except handler, lines 147 to 163:
any exception inside the try body degrades to the could-not-load warning. -/
def careerSection (body : Option Json) : List RenderItem :=
  match careerSectionE body with
  | .ok items => items
  | .error _ => [RenderItem.warning "Could not load career debut information."]

/-- The profile tab of show_top_stats, top_stats.py lines 85 to 166, as a
function of the selected search candidate, the decoded details body (the
get_player_details result) and the decoded career body. Line 86 subscripts
selected_player with name and teamName directly; line 87 uses .get with the
N/A default; the details block (fields, rankings, career, web link) runs
only under `if player_details:`. -/
def show_top_stats_profile (sp details : Json) (careerBody : Option Json) :
    Except PyErr (List RenderItem) := do
  let n ← pyGet sp "name"
  let t ← pyGet sp "teamName"
  let header := [RenderItem.text ("### " ++ pyStr n ++ " (" ++ pyStr t ++ ")")]
  let dob ← pyGetD sp "dob" (Json.str "N/A")
  let dobLine := [RenderItem.text ("📅 DOB: " ++ pyStr dob)]
  let img ← imageBlock sp details
  if truthy details then
    let role ← pyGetD details "role" (Json.str "N/A")
    let bat ← pyGetD details "bat" (Json.str "N/A")
    let bowl ← pyGetD details "bowl" (Json.str "N/A")
    let teams ← pyGetD details "teams" (Json.str "N/A")
    let bp ← pyGetD details "birthPlace" (Json.str "N/A")
    let fields :=
      [RenderItem.subheader "Player Details",
       RenderItem.text ("**Role:** " ++ pyStr role),
       RenderItem.text ("**Batting Style:** " ++ pyStr bat),
       RenderItem.text ("**Bowling Style:** " ++ pyStr bowl),
       RenderItem.text ("**Teams:** " ++ pyStr teams),
       RenderItem.text ("**Birth Place:** " ++ pyStr bp)]
    let hr ← pyContains "rankings" details
    let rk ←
      if hr then do
        let rv ← pyGet details "rankings"
        if truthy rv then do
          let c1 ← rankingsCol "Batting" "bat" rv
          let c2 ← rankingsCol "Bowling" "bowl" rv
          let c3 ← rankingsCol "All-Rounder" "all" rv
          pure (RenderItem.subheader "🏆 ICC Rankings" :: (c1 ++ c2 ++ c3))
        else pure []
      else pure []
    let career := RenderItem.subheader "Career Debut Information" :: careerSection careerBody
    let hw ← pyContains "webURL" details
    let link ←
      if hw then do
        let u ← pyGet details "webURL"
        pure [RenderItem.markdown ("[🔗 View on Cricbuzz](" ++ pyStr u ++ ")")]
      else pure []
    return header ++ dobLine ++ img ++ fields ++ rk ++ career ++ link
  else
    return header ++ dobLine ++ img

/-- run_query of src/pages/sql_queries.py lines 33 to 40: the query text is
passed verbatim to pd.read_sql on the given connection; any exception is
caught and surfaced as an on-page error with a None result. The database is
abstracted as a function from the exact query text to a result or an
exception message. -/
def run_query {α : Type} (connExec : String → Except String α) (query : String) :
    Option α × List RenderItem :=
  match connExec query with
  | .ok df => (some df, [])
  | .error e => (none, [RenderItem.errorMsg ("❌ Query Error: " ++ e)])

/-- Whether a rendered list contains a subheader with the given title. -/
def hasSubheader (items : List RenderItem) (s : String) : Bool :=
  items.any (fun i =>
    match i with
    | .subheader t => t == s
    | _ => false)

/-- Whether a rendered list contains any DataFrame display. -/
def hasTableItem (items : List RenderItem) : Bool :=
  items.any (fun i =>
    match i with
    | .table _ => true
    | _ => false)

/- Helper lemmas shared by the claim theorems. -/

theorem mapM_map_ok {α β γ ε : Type} (f : β → Except ε γ) (g : α → β) (h : α → γ)
    (l : List α) (hok : ∀ a ∈ l, f (g a) = .ok (h a)) :
    (l.map g).mapM f = .ok (l.map h) := by
  induction l with
  | nil => rfl
  | cons a as ih =>
      simp only [List.map_cons, List.mapM_cons, hok a (by simp),
        ih (fun x hx => hok x (by simp [hx]))]
      rfl

theorem maxLen_all_eq (rows : List (List Json)) (n : Nat)
    (hall : ∀ r ∈ rows, r.length = n) (hne : rows ≠ []) : maxLen rows = n := by
  have aux : ∀ (rs : List (List Json)) (a : Nat), (∀ r ∈ rs, r.length = n) →
      rs.foldl (fun m r => max m r.length) a = if rs.isEmpty then a else max a n := by
    intro rs
    induction rs with
    | nil => intro a _; rfl
    | cons r rest ih =>
        intro a hr
        simp only [List.foldl_cons, hr r (by simp), ih (max a n) (fun x hx => hr x (by simp [hx]))]
        cases rest with
        | nil => simp
        | cons y ys => simp [Nat.max_assoc, Nat.max_self]
  have := aux rows 0 hall
  simp only [maxLen, this]
  cases rows with
  | nil => exact absurd rfl hne
  | cons r rest => simp

theorem padRow_exact (w : Nat) (r : List Json) (hlen : r.length = w) :
    padRow w r = r.map Cell.val := by
  simp [padRow, hlen]

/-- parse_stats_table on a shape-conformant payload reduces to the pandas
constructor on the raw cell lists and headers. -/
theorem parse_stats_table_shape (hs : List Json) (cells : List (List Json)) :
    parse_stats_table (stats_of hs cells) = pdDataFrameL cells hs := by
  have h1 : (cells.map (fun e => Json.obj [("values", Json.arr e)])).mapM
      (fun row => pyGet row "values") = .ok (cells.map Json.arr) :=
    mapM_map_ok _ _ _ cells (fun a _ => by rfl)
  have h2 : (cells.map Json.arr).mapM asRowList = .ok cells := by
    have h0 := mapM_map_ok asRowList Json.arr id cells (fun a _ => by rfl)
    simpa using h0
  show Except.bind
      ((cells.map (fun e => Json.obj [("values", Json.arr e)])).mapM
        (fun row => pyGet row "values"))
      (fun rowsJ => Except.bind (rowsJ.mapM asRowList)
        (fun rows => pdDataFrameL rows hs))
    = pdDataFrameL cells hs
  rw [h1]
  show Except.bind ((cells.map Json.arr).mapM asRowList)
      (fun rows => pdDataFrameL rows hs)
    = pdDataFrameL cells hs
  rw [h2]
  rfl

theorem dictLookup_insert (d : List (Json × Json)) (n v k : Json) :
    dictLookup (dictInsert d n v) k = if n == k then some v else dictLookup d k := by
  induction d with
  | nil =>
      by_cases h : n = k
      · subst h
        simp [dictInsert, dictLookup, List.find?]
      · have hb : (n == k) = false := by simp [h]
        simp [dictInsert, dictLookup, List.find?, hb]
  | cons q rest ih =>
      obtain ⟨a, b⟩ := q
      by_cases h1 : a = n
      · subst h1
        rw [dictInsert, if_pos (by simp)]
        by_cases h2 : a = k
        · subst h2
          simp [dictLookup, List.find?]
        · have hb : (a == k) = false := by simp [h2]
          simp [dictLookup, List.find?, hb]
      · have hb1 : (a == n) = false := by simp [h1]
        rw [dictInsert, if_neg (by simp [h1])]
        by_cases h2 : a = k
        · subst h2
          have hnk : (n == a) = false := by
            simp only [beq_eq_false_iff_ne, ne_eq]
            exact fun he => h1 he.symm
          simp [dictLookup, List.find?, hnk]
        · have hb2 : (a == k) = false := by simp [h2]
          simp only [dictLookup, List.find?, hb2] at ih ⊢
          exact ih

/-- Whether a candidate object carries the display name k, as tested by the
dict-comprehension key expression p["name"]. -/
def nameMatches (k : Json) (p : Json) : Bool :=
  match pyGet p "name" with
  | .ok n => n == k
  | .error _ => false

theorem buildAux_lookup (ps : List Json) : ∀ (acc res : List (Json × Json)),
    buildPlayerOptionsAux acc ps = .ok res → ∀ k : Json,
    dictLookup res k =
      match ps.reverse.find? (nameMatches k) with
      | some p => some p
      | none => dictLookup acc k := by
  induction ps with
  | nil =>
      intro acc res h k
      simp only [buildPlayerOptionsAux] at h
      cases h
      rfl
  | cons p ps ih =>
      intro acc res h k
      simp only [buildPlayerOptionsAux] at h
      cases hg : pyGet p "name" with
      | error e => rw [hg] at h; cases h
      | ok n =>
          rw [hg] at h
          rw [ih (dictInsert acc n p) res h k]
          rw [List.reverse_cons, List.find?_append]
          cases hf : ps.reverse.find? (nameMatches k) with
          | some q => simp [Option.or]
          | none =>
              simp only [Option.or]
              simp only [List.find?, nameMatches, hg]
              rw [dictLookup_insert]
              by_cases h2 : n = k
              · subst h2; simp
              · have hb : (n == k) = false := by simp [h2]
                simp [hb]

/-- A search candidate as selected in the UI: display name and team name
present (the shape the rest of the page assumes). -/
def spOf (nm tm : String) : Json :=
  Json.obj [("name", Json.str nm), ("teamName", Json.str tm), ("id", Json.num 1)]

/-- A truthy details payload carrying only the five profile fields, with no
rankings key, no image key and no web link. -/
def detailsOf (role bat bowl teams bp : String) : Json :=
  Json.obj
    [("role", Json.str role), ("bat", Json.str bat), ("bowl", Json.str bowl),
     ("teams", Json.str teams), ("birthPlace", Json.str bp)]

/-- A career payload whose values list holds the given entry objects. -/
def careerOf (entries : List (List (String × Json))) : Json :=
  Json.obj [("values", Json.arr (entries.map Json.obj))]

/-- The three cells the career loop extracts from one entry object. -/
def careerRow (e : List (String × Json)) : List Json :=
  [(objLookup e "name").getD Json.null,
   (objLookup e "debut").getD Json.null,
   (objLookup e "lastPlayed").getD Json.null]

/-- The career DataFrame produced from the given entry objects. -/
def careerTableOf (entries : List (List (String × Json))) : Table :=
  Table.mk [Json.str "Format", Json.str "Debut", Json.str "Last Played"]
    (entries.map (fun e => (careerRow e).map Cell.val))

theorem careerSectionE_of (entries : List (List (String × Json))) (hne : entries ≠ []) :
    careerSectionE (some (careerOf entries)) =
      .ok [RenderItem.table (careerTableOf entries)] := by
  cases entries with
  | nil => exact absurd rfl hne
  | cons e es =>
      have hrow : ((e :: es).map Json.obj).mapM (fun f => do
          let a ← pyGetD f "name" Json.null
          let b ← pyGetD f "debut" Json.null
          let c ← pyGetD f "lastPlayed" Json.null
          return [a, b, c]) = .ok ((e :: es).map careerRow) :=
        mapM_map_ok _ _ _ (e :: es) (fun a _ => by rfl)
      have hall : ∀ r ∈ (e :: es).map careerRow, r.length = 3 := by
        intro r hr
        obtain ⟨x, _, hx⟩ := List.mem_map.mp hr
        rw [← hx]
        rfl
      have hpd : pdDataFrameL ((e :: es).map careerRow)
          [Json.str "Format", Json.str "Debut", Json.str "Last Played"]
          = .ok (careerTableOf (e :: es)) := by
        rw [pdDataFrameL]
        rw [if_neg (by simp)]
        rw [maxLen_all_eq _ 3 hall (by simp)]
        rw [if_pos (by rfl)]
        rw [List.map_map]
        have hcongr : ((e :: es).map ((padRow (maxLen ((e :: es).map careerRow))) ∘ careerRow))
            = (e :: es).map (fun x => (careerRow x).map Cell.val) := by
          apply List.map_congr_left
          intro a _
          simp only [Function.comp]
          rw [maxLen_all_eq _ 3 hall (by simp)]
          exact padRow_exact 3 (careerRow a) rfl
        rw [maxLen_all_eq _ 3 hall (by simp)] at hcongr
        rw [hcongr]
        rfl
      show Except.bind (((e :: es).map Json.obj).mapM (fun f => do
          let a ← pyGetD f "name" Json.null
          let b ← pyGetD f "debut" Json.null
          let c ← pyGetD f "lastPlayed" Json.null
          return [a, b, c]))
        (fun rows =>
          if rows.isEmpty then .ok [RenderItem.warning "No career debut information available."]
          else Except.bind (pdDataFrameL rows
            [Json.str "Format", Json.str "Debut", Json.str "Last Played"])
            (fun df => .ok [RenderItem.table df]))
        = .ok [RenderItem.table (careerTableOf (e :: es))]
      rw [hrow]
      show (if ((e :: es).map careerRow).isEmpty then
          Except.ok [RenderItem.warning "No career debut information available."]
        else Except.bind (pdDataFrameL ((e :: es).map careerRow)
          [Json.str "Format", Json.str "Debut", Json.str "Last Played"])
          (fun df => Except.ok [RenderItem.table df]))
        = .ok [RenderItem.table (careerTableOf (e :: es))]
      rw [if_neg (by simp)]
      rw [hpd]
      rfl

theorem careerSection_of (entries : List (List (String × Json))) (hne : entries ≠ []) :
    careerSection (some (careerOf entries)) = [RenderItem.table (careerTableOf entries)] := by
  rw [careerSection, careerSectionE_of entries hne]

theorem except_bind_ok {e a b : Type} (x : a) (f : a → Except e b) :
    (Bind.bind (Except.ok x) f : Except e b) = f x := rfl

theorem objContains_eq_isSome (l : List (String × Json)) (k : String) :
    objContains l k = (objLookup l k).isSome := by
  induction l with
  | nil => rfl
  | cons q rest ih =>
      simp only [objContains, objLookup, List.any, List.find?] at ih ⊢
      cases hq : q.1 == k
      · simpa [hq] using ih
      · simp [hq]

/-- Whether a decoded value is a dict. -/
def isObj : Json → Bool
  | .obj _ => true
  | _ => false

/-- C1 (amended): parse_stats_table returns the empty table, raising nothing,
for every falsy input and for every object input missing the headers key or
the values key; the original claim extended this to inputs whose headers or
values entry is not collection-shaped, but those make the row comprehension
raise (see the counterexample), so the safe-degradation guarantee holds only
for the missing-key and falsy cases. -/
theorem C1_empty_on_missing_keys (j : Json)
    (h : truthy j = false ∨ ∃ l, j = Json.obj l ∧
      (objContains l "headers" = false ∨ objContains l "values" = false)) :
    parse_stats_table j = .ok (Table.mk [] []) := by
  rcases h with hf | ⟨l, rfl, hk⟩
  · simp only [parse_stats_table, hf]
    rfl
  · cases ht : truthy (Json.obj l) with
    | false =>
        simp only [parse_stats_table, ht]
        rfl
    | true =>
        rcases hk with hh | hv
        · simp only [parse_stats_table, ht, pyContains, hh]
          rfl
        · cases hh2 : objContains l "headers" with
          | false =>
              simp only [parse_stats_table, ht, pyContains, hh2]
              rfl
          | true =>
              simp only [parse_stats_table, ht, pyContains, hh2, hv]
              rfl

theorem C1_empty_on_missing_keys_witness :
    objContains [("headers", Json.arr [])] "values" = false ∧
      parse_stats_table (Json.obj [("headers", Json.arr [])]) = .ok (Table.mk [] []) :=
  ⟨rfl, C1_empty_on_missing_keys _ (Or.inr ⟨_, rfl, Or.inr rfl⟩)⟩

/-- C1 (counterexample): with both keys present but a number under values,
iterating it in the row comprehension raises TypeError, contradicting the
never-raises clause of the claim for non-collection-shaped values. -/
theorem C1_counterexample :
    parse_stats_table (Json.obj [("headers", Json.arr []), ("values", Json.num 5)])
      = .error .typeError := by rfl

/-- C2 (amended): for well-formed stats payloads whose entries each supply
exactly as many cells as there are header labels, the normalizer returns the
headers verbatim and in order and one row per entry, the cells verbatim and
in order; the original claim dropped the equal-width proviso, but a pandas
DataFrame is rectangular, so an entry shorter than the widest row is padded
with NaN rather than kept at its own length (see the counterexample). -/
theorem C2_verbatim_when_widths_match (hs : List Json) (cells : List (List Json))
    (hlen : ∀ e ∈ cells, e.length = hs.length) :
    parse_stats_table (stats_of hs cells)
        = .ok (Table.mk hs (cells.map (List.map Cell.val)))
    ∧ (cells.map (List.map Cell.val)).length = cells.length := by
  refine ⟨?_, by simp⟩
  rw [parse_stats_table_shape]
  cases cells with
  | nil => rfl
  | cons c cs =>
      simp only [pdDataFrameL]
      rw [if_neg (by simp)]
      rw [maxLen_all_eq _ hs.length hlen (by simp)]
      rw [if_pos rfl]
      have hrows : (c :: cs).map (padRow hs.length) = (c :: cs).map (List.map Cell.val) := by
        apply List.map_congr_left
        intro a ha
        exact padRow_exact hs.length a (hlen a ha)
      rw [hrows]

theorem C2_verbatim_when_widths_match_witness :
    (∀ e ∈ [[Json.str "x"]], e.length = [Json.str "A"].length) ∧
      parse_stats_table (stats_of [Json.str "A"] [[Json.str "x"]])
        = .ok (Table.mk [Json.str "A"] [[Cell.val (Json.str "x")]]) :=
  ⟨by decide, (C2_verbatim_when_widths_match [Json.str "A"] [[Json.str "x"]] (by decide)).1⟩

/-- C2 (counterexample): with two headers and entries of two and one cells,
the one-cell row comes back padded to length two with the NaN fill, so its
length is not the cell count supplied in its entry. -/
theorem C2_counterexample :
    parse_stats_table
        (stats_of [Json.str "A", Json.str "B"]
          [[Json.str "x", Json.str "y"], [Json.str "z"]])
      = .ok (Table.mk [Json.str "A", Json.str "B"]
          [[Cell.val (Json.str "x"), Cell.val (Json.str "y")],
           [Cell.val (Json.str "z"), Cell.nan]])
    ∧ [Cell.val (Json.str "z"), Cell.nan].length ≠ [Json.str "z"].length :=
  ⟨by rfl, by decide⟩

/-- C3 (amended): an input with a row whose cell count differs from the
header count is tolerated only when the widest row still matches the header
count (the short rows being padded); when the inferred width differs from
the header count, the DataFrame constructor raises, so such inputs are not
in general handled without a crash. -/
theorem C3_mismatch_crash_characterization (hs : List Json) (cells : List (List Json))
    (hne : cells ≠ []) :
    (hs.length = maxLen cells →
      parse_stats_table (stats_of hs cells)
        = .ok (Table.mk hs (cells.map (padRow (maxLen cells)))))
    ∧ (hs.length ≠ maxLen cells →
      parse_stats_table (stats_of hs cells) = .error .valueError) := by
  constructor <;> intro h <;> rw [parse_stats_table_shape] <;> simp only [pdDataFrameL] <;>
    rw [if_neg (by simp [hne])]
  · rw [if_pos h]
  · rw [if_neg h]

theorem C3_mismatch_crash_characterization_witness :
    ([[Json.str "x"]] : List (List Json)) ≠ [] ∧
      [Json.str "A", Json.str "B"].length ≠ maxLen [[Json.str "x"]] ∧
      parse_stats_table (stats_of [Json.str "A", Json.str "B"] [[Json.str "x"]])
        = .error .valueError :=
  ⟨by decide, by decide,
    (C3_mismatch_crash_characterization [Json.str "A", Json.str "B"] [[Json.str "x"]]
      (by decide)).2 (by decide)⟩

/-- C3 (counterexample): a single one-cell row under two headers makes the
DataFrame constructor raise its column-count mismatch error, so
parse_stats_table does raise on an input with a row whose cell count
differs from the header count. -/
theorem C3_counterexample :
    parse_stats_table (stats_of [Json.str "A", Json.str "B"] [[Json.str "x"]])
      = .error .valueError := by rfl

/-- C9 (confirmed): with both keys present and an empty values list the
result keeps the N header labels and has zero rows, while an object missing
the values key yields the zero-column zero-row table, so the column set does
distinguish empty-because-absent from empty-because-zero-rows. -/
theorem C9_empty_values_keeps_headers (hs : List Json) :
    parse_stats_table (stats_of hs []) = .ok (Table.mk hs [])
    ∧ parse_stats_table (Json.obj [("headers", Json.arr hs)]) = .ok (Table.mk [] []) := by
  constructor
  · rw [parse_stats_table_shape]
    rfl
  · rfl

/-- The items the profile tab renders before the career block for a
candidate with name and team and a details payload carrying exactly the
five profile fields. -/
def profilePrefix (nm tm role bat bowl teams bp : String) : List RenderItem :=
  [RenderItem.text ("### " ++ nm ++ " (" ++ tm ++ ")"),
   RenderItem.text "📅 DOB: N/A",
   RenderItem.image "https://placehold.co/150x150/800000/FFFFFF?text=No+Image",
   RenderItem.subheader "Player Details",
   RenderItem.text ("**Role:** " ++ role),
   RenderItem.text ("**Batting Style:** " ++ bat),
   RenderItem.text ("**Bowling Style:** " ++ bowl),
   RenderItem.text ("**Teams:** " ++ teams),
   RenderItem.text ("**Birth Place:** " ++ bp),
   RenderItem.subheader "Career Debut Information"]

theorem profile_detailsOf_eval (nm tm role bat bowl teams bp : String) (body : Option Json) :
    show_top_stats_profile (spOf nm tm) (detailsOf role bat bowl teams bp) body
      = .ok (profilePrefix nm tm role bat bowl teams bp ++ careerSection body) := by
  show Except.ok
      (RenderItem.text ("### " ++ nm ++ " (" ++ tm ++ ")") ::
       RenderItem.text "📅 DOB: N/A" ::
       RenderItem.image "https://placehold.co/150x150/800000/FFFFFF?text=No+Image" ::
       RenderItem.subheader "Player Details" ::
       RenderItem.text ("**Role:** " ++ role) ::
       RenderItem.text ("**Batting Style:** " ++ bat) ::
       RenderItem.text ("**Bowling Style:** " ++ bowl) ::
       RenderItem.text ("**Teams:** " ++ teams) ::
       RenderItem.text ("**Birth Place:** " ++ bp) ::
       RenderItem.subheader "Career Debut Information" ::
       (careerSection body ++ []))
    = Except.ok (profilePrefix nm tm role bat bowl teams bp ++ careerSection body)
  rw [List.append_nil]
  rfl

/-- C4 (amended): once the details fetch has succeeded with a truthy details
object, the remaining failure modes are isolated: with no rankings data and
a well-formed nonempty career body, the profile tab renders no rankings
section and a populated career table; and with the career fetch failing, it
renders the could-not-load warning while the profile fields still appear.
The original claim made all three groups mutually independent, but the
career block is nested under the details-truthiness test, so a failed
details fetch suppresses the career section (see the counterexample). -/
theorem C4_isolation_given_details (nm tm role bat bowl teams bp : String)
    (entries : List (List (String × Json))) (hne : entries ≠ []) :
    (show_top_stats_profile (spOf nm tm) (detailsOf role bat bowl teams bp)
        (some (careerOf entries))
      = .ok (profilePrefix nm tm role bat bowl teams bp ++
          [RenderItem.table (careerTableOf entries)]))
    ∧ (careerTableOf entries).rows ≠ []
    ∧ hasSubheader (profilePrefix nm tm role bat bowl teams bp ++
        [RenderItem.table (careerTableOf entries)]) "🏆 ICC Rankings" = false
    ∧ show_top_stats_profile (spOf nm tm) (detailsOf role bat bowl teams bp) none
      = .ok (profilePrefix nm tm role bat bowl teams bp ++
          [RenderItem.warning "Could not load career debut information."]) := by
  refine ⟨?_, ?_, ?_, ?_⟩
  · rw [profile_detailsOf_eval, careerSection_of entries hne]
  · simp [careerTableOf, hne]
  · simp [hasSubheader, profilePrefix, List.any]
  · rw [profile_detailsOf_eval]
    rfl

theorem C4_isolation_given_details_witness :
    ([[("name", Json.str "Test")]] : List (List (String × Json))) ≠ [] ∧
      show_top_stats_profile (spOf "V" "India")
          (detailsOf "Batsman" "RHB" "Off break" "India" "Delhi")
          (some (careerOf [[("name", Json.str "Test")]]))
        = .ok (profilePrefix "V" "India" "Batsman" "RHB" "Off break" "India" "Delhi" ++
            [RenderItem.table (careerTableOf [[("name", Json.str "Test")]])]) :=
  ⟨by decide,
    (C4_isolation_given_details "V" "India" "Batsman" "RHB" "Off break" "India" "Delhi"
      [[("name", Json.str "Test")]] (by decide)).1⟩

/-- C4 (counterexample): when the details fetch fails (empty dict) while the
career endpoint body is valid and nonempty, the profile tab renders no
career table at all, although the same career body renders a populated
table on its own; so the failure of the details fetch does prevent the
career rendering. -/
theorem C4_counterexample :
    show_top_stats_profile (spOf "V" "India") (Json.obj [])
        (some (careerOf [[("name", Json.str "Test"), ("debut", Json.str "2011"),
          ("lastPlayed", Json.str "2019")]]))
      = .ok [RenderItem.text "### V (India)", RenderItem.text "📅 DOB: N/A",
          RenderItem.image "https://placehold.co/150x150/800000/FFFFFF?text=No+Image"]
    ∧ hasTableItem [RenderItem.text "### V (India)", RenderItem.text "📅 DOB: N/A",
        RenderItem.image "https://placehold.co/150x150/800000/FFFFFF?text=No+Image"] = false
    ∧ careerSection (some (careerOf [[("name", Json.str "Test"), ("debut", Json.str "2011"),
        ("lastPlayed", Json.str "2019")]]))
      = [RenderItem.table (careerTableOf [[("name", Json.str "Test"),
          ("debut", Json.str "2011"), ("lastPlayed", Json.str "2019")]])] :=
  ⟨by rfl, by rfl, by rfl⟩

/-- A truthy details payload with none of the named profile fields bound. -/
def detailsMissing : Json := Json.obj [("id", Json.num 35320)]

/-- C7 (amended): with a truthy details object missing role, batting style,
bowling style, teams and birthplace, every one of those fields renders the
explicit N/A marker, a missing dob renders N/A, a missing image renders the
placeholder, and a missing webURL renders no link and no fault; but the
name and team fields are read with plain subscripts at line 86, so their
absence raises a KeyError rather than rendering a marker (see the
counterexample). -/
theorem C7_absent_fields_render_markers (nm tm : String) :
    show_top_stats_profile (spOf nm tm) detailsMissing none
      = .ok [RenderItem.text ("### " ++ nm ++ " (" ++ tm ++ ")"),
         RenderItem.text "📅 DOB: N/A",
         RenderItem.image "https://placehold.co/150x150/800000/FFFFFF?text=No+Image",
         RenderItem.subheader "Player Details",
         RenderItem.text "**Role:** N/A",
         RenderItem.text "**Batting Style:** N/A",
         RenderItem.text "**Bowling Style:** N/A",
         RenderItem.text "**Teams:** N/A",
         RenderItem.text "**Birth Place:** N/A",
         RenderItem.subheader "Career Debut Information",
         RenderItem.warning "Could not load career debut information."] := by rfl

/-- C7 (counterexample): a selected candidate without the teamName field
makes line 86 raise KeyError before anything renders, contradicting the
never-faults clause for the team field. -/
theorem C7_counterexample :
    show_top_stats_profile (Json.obj [("name", Json.str "V"), ("id", Json.num 9)])
        (Json.obj [("role", Json.str "Batsman")]) none
      = .error .keyError := by rfl

/-- C5 (confirmed): the candidate dict built by the comprehension at line 77
is keyed by display name, and looking any key up yields exactly the last
candidate in the API ordering whose name equals that key, so of two
candidates sharing a display name the later one wins the key. -/
theorem C5_later_candidate_wins (ps : List Json) (res : List (Json × Json))
    (h : buildPlayerOptions ps = .ok res) (k : Json) :
    dictLookup res k = ps.reverse.find? (nameMatches k) := by
  rw [buildAux_lookup ps [] res h k]
  cases ps.reverse.find? (nameMatches k) <;> rfl

theorem C5_later_candidate_wins_witness :
    buildPlayerOptions
        [Json.obj [("name", Json.str "A"), ("id", Json.num 1)],
         Json.obj [("name", Json.str "A"), ("id", Json.num 2)]]
      = .ok [(Json.str "A", Json.obj [("name", Json.str "A"), ("id", Json.num 2)])]
    ∧ dictLookup [(Json.str "A", Json.obj [("name", Json.str "A"), ("id", Json.num 2)])]
        (Json.str "A")
      = some (Json.obj [("name", Json.str "A"), ("id", Json.num 2)]) := by
  refine ⟨by rfl, ?_⟩
  rw [C5_later_candidate_wins
    [Json.obj [("name", Json.str "A"), ("id", Json.num 1)],
     Json.obj [("name", Json.str "A"), ("id", Json.num 2)]]
    [(Json.str "A", Json.obj [("name", Json.str "A"), ("id", Json.num 2)])]
    (by rfl) (Json.str "A")]
  rfl

/-- C6 (amended): an undecodable search body, an object body missing the
player key, and an object body with a falsy player value (the
zero-candidate response) all resolve to the no-players-found state with no
exception; but a decoded non-iterable body such as null makes the
membership test at line 76 raise TypeError, so the no-fault guarantee does
not cover every malformed response (see the counterexample). -/
theorem C6_empty_search_is_no_results (body : Option Json)
    (h : body = none ∨ ∃ l, body = some (Json.obj l) ∧
      (objLookup l "player" = none ∨
        ∃ v, objLookup l "player" = some v ∧ truthy v = false)) :
    show_top_stats_resolve body = .ok .noPlayersFound := by
  rcases h with rfl | ⟨l, rfl, hcase⟩
  · rfl
  · rcases hcase with hnone | ⟨v, hv, htr⟩
    · have hc : objContains l "player" = false := by
        rw [objContains_eq_isSome, hnone]
        rfl
      simp only [show_top_stats_resolve, search_players, pyContains, hc]
      rfl
    · have hc : objContains l "player" = true := by
        rw [objContains_eq_isSome, hv]
        rfl
      simp only [show_top_stats_resolve, search_players, pyContains, pyGet, hc, hv,
        except_bind_ok, htr]
      rfl

theorem C6_empty_search_is_no_results_witness :
    (objLookup [("player", Json.arr [])] "player" = some (Json.arr [])
      ∧ truthy (Json.arr []) = false)
    ∧ show_top_stats_resolve (some (Json.obj [("player", Json.arr [])]))
        = .ok .noPlayersFound :=
  ⟨⟨rfl, rfl⟩,
    C6_empty_search_is_no_results _
      (Or.inr ⟨_, rfl, Or.inr ⟨Json.arr [], rfl, rfl⟩⟩)⟩

/-- C6 (counterexample): a body that decodes to null (a syntactically valid
malformed response with no player key) makes `"player" in results` raise
TypeError, so the resolve step does produce an exception on a malformed
response. -/
theorem C6_counterexample :
    show_top_stats_resolve (some Json.null) = .error .typeError := by rfl

/-- C8 (confirmed): run_query applies the connection to the exact query
text with no validation or parameterization, and always returns either the
materialized table or the explicit failure signal of None together with the
on-page error message; the except handler makes it total, never propagating
an exception to the caller. -/
theorem C8_run_query_contract {α : Type} (connExec : String → Except String α) (q : String) :
    (∃ t, connExec q = .ok t ∧ run_query connExec q = (some t, []))
    ∨ (∃ e, connExec q = .error e ∧
        run_query connExec q = (none, [RenderItem.errorMsg ("❌ Query Error: " ++ e)])) := by
  cases h : connExec q with
  | ok t => exact Or.inl ⟨t, rfl, by simp [run_query, h]⟩
  | error e => exact Or.inr ⟨e, rfl, by simp [run_query, h]⟩

/-- C10 (amended): search_players and get_player_details return the empty
dict, raising nothing, whenever the body is undecodable, and
get_player_stats returns the empty dict for every non-200 status; but a
consumer cannot assume a dict result in general, because a decodable
non-dict body is returned verbatim (see the counterexample). -/
theorem C10_total_fetch_helpers :
    search_players none = Json.obj []
    ∧ get_player_details none = Json.obj []
    ∧ ∀ status : Nat, status ≠ 200 → ∀ body : Option Json,
        get_player_stats status body = .ok (Json.obj []) := by
  refine ⟨rfl, rfl, fun status h body => ?_⟩
  simp [get_player_stats, h]

theorem C10_total_fetch_helpers_witness :
    (404 ≠ 200) ∧ get_player_stats 404 none = .ok (Json.obj []) :=
  ⟨by decide, C10_total_fetch_helpers.2.2 404 (by decide) none⟩

/-- C10 (counterexample): a body decoding to the number 5 is returned
verbatim by search_players and is not a dict, so downstream consumers
cannot assume a dict result. -/
theorem C10_counterexample :
    search_players (some (Json.num 5)) = Json.num 5 ∧ isObj (Json.num 5) = false :=
  ⟨rfl, rfl⟩
